import Mathlib

/-!
Verification of the HTTP façade in `backend/app.py` of
Market-Attribution-Intelligence.

The program is a four-route request router over two external clients: a
brokerage client (`breeze`) and a generative-text client (`model`).  We embed
it shallowly: JSON values are an inductive type, the vendor SDKs are stub
records of functions returning `Except String _` (an exception is the
`.error` branch carrying the stringified message), and each route handler is
a pure function from the parsed request body, the stub behaviours and the
process-wide brokerage session state to an outcome, the new session state
and the trace of vendor invocations it performed.

Python-specific details that matter to the handlers are embedded too:
`dict.get` returns `None` (here `Json.null`) for a missing key, `.get` on a
non-dict raises `AttributeError` — and in the source all `.get` calls sit
*outside* the `try` block, so that failure escapes the handler (modelled by
the `Outcome.uncaught` constructor) — and an f-string interpolates a value
through Python `str()` (here `pyStr`, with `str(None) = "None"`).
-/

namespace MarketAttribution

/-- JSON values, as parsed from a request body or returned by a provider. -/
inductive Json where
  | null : Json
  | bool : Bool → Json
  | num : Int → Json
  | str : String → Json
  | arr : List Json → Json
  | obj : List (String × Json) → Json
deriving Repr

/-- Python `dict.get(key)`: the stored value, or `None` when absent. -/
def dictGet (fields : List (String × Json)) (key : String) : Json :=
  match fields.find? (fun p => p.1 == key) with
  | some p => p.2
  | none => Json.null

/-- `data.get(key)` on an arbitrary parsed body: succeeds only when `data`
is a JSON object (a Python dict); on any other value, including the `None`
that Flask yields for a `null` body, Python raises `AttributeError`. -/
def pyGet (data : Json) (key : String) : Except String Json :=
  match data with
  | .obj fields => .ok (dictGet fields key)
  | _ => .error "AttributeError"

/-- Python `repr` of a JSON-shaped value, as used for elements of
containers when they are stringified. -/
def pyRepr : Json → String
  | .null => "None"
  | .bool true => "True"
  | .bool false => "False"
  | .num n => toString n
  | .str s => "'" ++ s ++ "'"
  | .arr xs => "[" ++ String.intercalate ", " (xs.attach.map (fun x => pyRepr x.1)) ++ "]"
  | .obj fs => "\x7b" ++
      String.intercalate ", "
        (fs.attach.map (fun p => "'" ++ p.1.1 ++ "': " ++ pyRepr p.1.2)) ++ "\x7d"
termination_by j => sizeOf j
decreasing_by
  · have h := List.sizeOf_lt_of_mem x.2
    simp only [Json.arr.sizeOf_spec]
    omega
  · have h := List.sizeOf_lt_of_mem p.2
    have h2 : sizeOf p.1.2 < sizeOf p.1 := by
      obtain ⟨a, b⟩ := p.1
      simp
    simp only [Json.obj.sizeOf_spec]
    omega

/-- Python `str()`, the conversion an f-string applies: a string
interpolates as itself, everything else through its `repr`. -/
def pyStr (j : Json) : String :=
  match j with
  | .str s => s
  | _ => pyRepr j

/-- Keyword arguments of `breeze.generate_session` at the call site in
`set_session`: the process-wide secret and the request's token. -/
structure GenerateSessionArgs where
  api_secret : Option String
  session_token : Json
deriving Repr

/-- Keyword arguments of `breeze.get_quotes` at the call site in
`get_quotes`, in source order. -/
structure GetQuotesArgs where
  stock_code : Json
  exchange_code : String
  expiry_date : String
  product_type : String
  right : String
  strike_price : String
deriving Repr

/-- Keyword arguments of `breeze.get_market_depth` at the call site in
`get_depth`: only three are passed, in source order. -/
structure GetMarketDepthArgs where
  stock_code : Json
  exchange_code : String
  product_type : String
deriving Repr

/-- Stub behaviour of the brokerage SDK (`BreezeConnect`): each capability
either returns a payload or raises an exception with a message. -/
structure BreezeStub where
  generate_session : GenerateSessionArgs → Except String Unit
  get_quotes : GetQuotesArgs → Except String Json
  get_market_depth : GetMarketDepthArgs → Except String Json

/-- The brokerage client's internal session state: the credentials of the
last successful `generate_session` call, if any. -/
def BreezeSession := Option GenerateSessionArgs

/-- What a route produces: an HTTP response with a status code and JSON
body, or an exception that escaped the handler uncaught. -/
inductive Outcome where
  | response : Nat → Json → Outcome
  | uncaught : String → Outcome
deriving Repr

/-- Handler of `POST /api/breeze/admin/api-session` (`set_session` in
`app.py`).  `data.get("api_session")` runs outside the `try`; the
`generate_session` call is tried, success answers 200 with a fixed body and
mutates the shared session, an exception answers 400 with its message. -/
def set_session (secret : Option String) (stub : BreezeStub)
    (session : BreezeSession) (data : Json) :
    Outcome × BreezeSession × List GenerateSessionArgs :=
  match pyGet data "api_session" with
  | .error e => (.uncaught e, session, [])
  | .ok session_token =>
    let args : GenerateSessionArgs := ⟨secret, session_token⟩
    match stub.generate_session args with
    | .ok _ =>
        (.response 200 (.obj [("status", .str "success"),
                              ("message", .str "Session generated")]),
         some args, [args])
    | .error e =>
        (.response 400 (.obj [("status", .str "error"), ("message", .str e)]),
         session, [args])

/-- Handler of `POST /api/breeze/quotes` (`get_quotes` in `app.py`).
`data.get("stock_code")` runs outside the `try`; the quote call passes the
extracted code plus the fixed `NSE`/`cash` parameters and empty strings for
expiry date, right and strike price; its payload is relayed as a 200, an
exception becomes a 500 error body. -/
def get_quotes (stub : BreezeStub) (session : BreezeSession) (data : Json) :
    Outcome × BreezeSession × List GetQuotesArgs :=
  match pyGet data "stock_code" with
  | .error e => (.uncaught e, session, [])
  | .ok stock_code =>
    let args : GetQuotesArgs := ⟨stock_code, "NSE", "", "cash", "", ""⟩
    match stub.get_quotes args with
    | .ok res => (.response 200 res, session, [args])
    | .error e =>
        (.response 500 (.obj [("status", .str "error"), ("message", .str e)]),
         session, [args])

/-- Handler of `POST /api/breeze/depth` (`get_depth` in `app.py`): as the
quotes handler, but calling `get_market_depth` with only the three
parameters present at that call site. -/
def get_depth (stub : BreezeStub) (session : BreezeSession) (data : Json) :
    Outcome × BreezeSession × List GetMarketDepthArgs :=
  match pyGet data "stock_code" with
  | .error e => (.uncaught e, session, [])
  | .ok stock_code =>
    let args : GetMarketDepthArgs := ⟨stock_code, "NSE", "cash"⟩
    match stub.get_market_depth args with
    | .ok res => (.response 200 res, session, [args])
    | .error e =>
        (.response 500 (.obj [("status", .str "error"), ("message", .str e)]),
         session, [args])

/-- Handler of `POST /api/analyze_market` (`analyze_market` in `app.py`).
The prompt f-string (and the `data.get` inside it) is built outside the
`try`; the model call's text is relayed as `(200, obj [text]),` an exception
becomes `(500, obj [error])`.  The generative client is a stub from prompt
strings to text or exception. -/
def analyze_market (genModel : String → Except String String)
    (session : BreezeSession) (data : Json) :
    Outcome × BreezeSession × List String :=
  match pyGet data "log_date" with
  | .error e => (.uncaught e, session, [])
  | .ok log_date =>
    let prompt := "Analyze Nifty 50 for " ++ pyStr log_date ++ "..."
    match genModel prompt with
    | .ok t => (.response 200 (.obj [("text", .str t)]), session, [prompt])
    | .error e => (.response 500 (.obj [("error", .str e)]), session, [prompt])

/-- A concrete stub brokerage client, used to instantiate the theorems:
each capability succeeds on a string stock code / token and raises
otherwise. -/
def demoStub : BreezeStub where
  generate_session := fun a =>
    match a.session_token with
    | .str _ => .ok ()
    | _ => .error "Invalid session token"
  get_quotes := fun a =>
    match a.stock_code with
    | .str s => .ok (.obj [("stock", .str s), ("ltp", .num 100)])
    | _ => .error "stock_code must not be null"
  get_market_depth := fun a =>
    match a.stock_code with
    | .str s => .ok (.obj [("stock", .str s), ("depth", .arr [])])
    | _ => .error "depth lookup failed"

/-- A concrete stub generative-text client: answers a fixed analysis for
any non-empty prompt, raises on an empty one. -/
def demoModel : String → Except String String := fun prompt =>
  match prompt.data with
  | [] => .error "model unavailable"
  | _ :: _ => .ok "Nifty consolidated."

/-- Helper: whatever the model answers, the analysis handler sends exactly
one prompt, the f-string template around the stringified `log_date`. -/
theorem analyze_market_trace_eq (g : String → Except String String)
    (session : BreezeSession) (fields : List (String × Json)) :
    (analyze_market g session (Json.obj fields)).2.2 =
      ["Analyze Nifty 50 for " ++ pyStr (dictGet fields "log_date") ++ "..."] := by
  cases h : g ("Analyze Nifty 50 for " ++ pyStr (dictGet fields "log_date") ++ "...") with
  | ok t => simp [analyze_market, pyGet, h]
  | error e => simp [analyze_market, pyGet, h]

/-- C1: for a JSON-object body whose `stock_code` is the string `sc`, when
the brokerage quote call succeeds, the quotes handler invokes `get_quotes`
with `sc` plus `exchange_code="NSE"`, `product_type="cash"` and empty
`expiry_date`, `right`, `strike_price`, and answers HTTP 200 with the
provider payload unchanged. -/
theorem quotes_identity_pass_through
    (stub : BreezeStub) (session : BreezeSession)
    (fields : List (String × Json)) (sc : String) (payload : Json)
    (hsc : dictGet fields "stock_code" = Json.str sc)
    (hok : stub.get_quotes ⟨Json.str sc, "NSE", "", "cash", "", ""⟩ = .ok payload) :
    get_quotes stub session (Json.obj fields) =
      (Outcome.response 200 payload, session,
       [⟨Json.str sc, "NSE", "", "cash", "", ""⟩]) := by
  simp [get_quotes, pyGet, hsc, hok]

/-- Witness for C1 at a concrete stub and body. -/
theorem quotes_identity_pass_through_witness :
    get_quotes demoStub none (Json.obj [("stock_code", Json.str "TCS")]) =
      (Outcome.response 200 (Json.obj [("stock", Json.str "TCS"), ("ltp", Json.num 100)]),
       none, [⟨Json.str "TCS", "NSE", "", "cash", "", ""⟩]) :=
  quotes_identity_pass_through demoStub none [("stock_code", Json.str "TCS")] "TCS"
    (Json.obj [("stock", Json.str "TCS"), ("ltp", Json.num 100)]) rfl rfl

/-- C2: for a JSON-object body, the session route calls `generate_session`
exactly once, with the process-wide secret and the body's `api_session`
value; a normal return answers 200 with the fixed success body, an
exception answers 400 with the stringified message. -/
theorem session_route_contract
    (secret : Option String) (stub : BreezeStub) (session : BreezeSession)
    (fields : List (String × Json)) (token : Json)
    (ht : dictGet fields "api_session" = token) :
    (set_session secret stub session (Json.obj fields)).2.2 = [⟨secret, token⟩] ∧
    (stub.generate_session ⟨secret, token⟩ = .ok () →
      (set_session secret stub session (Json.obj fields)).1 =
        Outcome.response 200 (Json.obj [("status", Json.str "success"),
                                        ("message", Json.str "Session generated")])) ∧
    (∀ e, stub.generate_session ⟨secret, token⟩ = .error e →
      (set_session secret stub session (Json.obj fields)).1 =
        Outcome.response 400 (Json.obj [("status", Json.str "error"),
                                        ("message", Json.str e)])) := by
  subst ht
  cases h : stub.generate_session ⟨secret, dictGet fields "api_session"⟩ with
  | ok u => simp [set_session, pyGet, h]
  | error e => simp [set_session, pyGet, h]

/-- Witness for C2: concrete success call, invoked once with the token. -/
theorem session_route_contract_witness :
    (set_session (some "secret-key") demoStub none
        (Json.obj [("api_session", Json.str "tok123")])).2.2 =
      [⟨some "secret-key", Json.str "tok123"⟩] ∧
    (set_session (some "secret-key") demoStub none
        (Json.obj [("api_session", Json.str "tok123")])).1 =
      Outcome.response 200 (Json.obj [("status", Json.str "success"),
                                      ("message", Json.str "Session generated")]) :=
  ⟨(session_route_contract (some "secret-key") demoStub none
      [("api_session", Json.str "tok123")] (Json.str "tok123") rfl).1,
   (session_route_contract (some "secret-key") demoStub none
      [("api_session", Json.str "tok123")] (Json.str "tok123") rfl).2.1 rfl⟩

/-- C3: for a JSON-object body, an exception from the brokerage call inside
the quotes or depth handler surfaces as HTTP 500 with body
`\x7bstatus: error, message: <the exception text>\x7d`. -/
theorem quotes_depth_error_500
    (stub : BreezeStub) (session : BreezeSession)
    (fields : List (String × Json)) (e f : String)
    (hq : stub.get_quotes ⟨dictGet fields "stock_code", "NSE", "", "cash", "", ""⟩ = .error e)
    (hd : stub.get_market_depth ⟨dictGet fields "stock_code", "NSE", "cash"⟩ = .error f) :
    (get_quotes stub session (Json.obj fields)).1 =
      Outcome.response 500 (Json.obj [("status", Json.str "error"),
                                      ("message", Json.str e)]) ∧
    (get_depth stub session (Json.obj fields)).1 =
      Outcome.response 500 (Json.obj [("status", Json.str "error"),
                                      ("message", Json.str f)]) := by
  constructor
  · simp [get_quotes, pyGet, hq]
  · simp [get_depth, pyGet, hd]

/-- Witness for C3: the concrete stub raises on a null stock code. -/
theorem quotes_depth_error_500_witness :
    (get_quotes demoStub none (Json.obj [])).1 =
      Outcome.response 500 (Json.obj [("status", Json.str "error"),
        ("message", Json.str "stock_code must not be null")]) ∧
    (get_depth demoStub none (Json.obj [])).1 =
      Outcome.response 500 (Json.obj [("status", Json.str "error"),
        ("message", Json.str "depth lookup failed")]) :=
  quotes_depth_error_500 demoStub none []
    "stock_code must not be null" "depth lookup failed" rfl rfl

/-- C4: the depth handler mirrors the quotes handler but invokes
`get_market_depth`, with `exchange_code="NSE"` and `product_type="cash"`,
relaying the provider's depth payload unchanged with HTTP 200. -/
theorem depth_identity_pass_through
    (stub : BreezeStub) (session : BreezeSession)
    (fields : List (String × Json)) (sc : String) (payload : Json)
    (hsc : dictGet fields "stock_code" = Json.str sc)
    (hok : stub.get_market_depth ⟨Json.str sc, "NSE", "cash"⟩ = .ok payload) :
    get_depth stub session (Json.obj fields) =
      (Outcome.response 200 payload, session, [⟨Json.str sc, "NSE", "cash"⟩]) := by
  simp [get_depth, pyGet, hsc, hok]

/-- Witness for C4 at a concrete stub and body. -/
theorem depth_identity_pass_through_witness :
    get_depth demoStub none (Json.obj [("stock_code", Json.str "TCS")]) =
      (Outcome.response 200 (Json.obj [("stock", Json.str "TCS"), ("depth", Json.arr [])]),
       none, [⟨Json.str "TCS", "NSE", "cash"⟩]) :=
  depth_identity_pass_through demoStub none [("stock_code", Json.str "TCS")] "TCS"
    (Json.obj [("stock", Json.str "TCS"), ("depth", Json.arr [])]) rfl rfl

/-- C5: for a JSON-object body whose `log_date` is the string `d`, the
analysis handler sends one prompt containing `d` as a substring; a normal
model return `t` answers 200 with `\x7btext: t\x7d`, an exception answers
500 with `\x7berror: <message>\x7d`. -/
theorem analyze_market_contract
    (g : String → Except String String) (session : BreezeSession)
    (fields : List (String × Json)) (d : String)
    (hd : dictGet fields "log_date" = Json.str d) :
    (∃ pre post, (analyze_market g session (Json.obj fields)).2.2 = [pre ++ d ++ post]) ∧
    (∀ t, g ("Analyze Nifty 50 for " ++ d ++ "...") = .ok t →
      (analyze_market g session (Json.obj fields)).1 =
        Outcome.response 200 (Json.obj [("text", Json.str t)])) ∧
    (∀ e, g ("Analyze Nifty 50 for " ++ d ++ "...") = .error e →
      (analyze_market g session (Json.obj fields)).1 =
        Outcome.response 500 (Json.obj [("error", Json.str e)])) := by
  refine ⟨⟨"Analyze Nifty 50 for ", "...", ?_⟩, ?_, ?_⟩
  · rw [analyze_market_trace_eq, hd]
    rfl
  · intro t h
    simp [analyze_market, pyGet, pyStr, hd, h]
  · intro e h
    simp [analyze_market, pyGet, pyStr, hd, h]

/-- Witness for C5: the concrete model stub answers the dated prompt. -/
theorem analyze_market_contract_witness :
    (∃ pre post, (analyze_market demoModel none
        (Json.obj [("log_date", Json.str "2024-01-01")])).2.2 =
          [pre ++ "2024-01-01" ++ post]) ∧
    (analyze_market demoModel none (Json.obj [("log_date", Json.str "2024-01-01")])).1 =
      Outcome.response 200 (Json.obj [("text", Json.str "Nifty consolidated.")]) :=
  ⟨(analyze_market_contract demoModel none [("log_date", Json.str "2024-01-01")]
      "2024-01-01" rfl).1,
   (analyze_market_contract demoModel none [("log_date", Json.str "2024-01-01")]
      "2024-01-01" rfl).2.1 "Nifty consolidated." rfl⟩

/-- C6 fails as stated: an exception can escape a handler uncaught.  The
field extraction `data.get("stock_code")` runs before the `try` block, so
for a request whose body is a JSON array the `AttributeError` it raises is
not caught by the quotes route and no JSON error response is produced. -/
theorem routes_catch_failures_counterexample :
    (get_quotes demoStub none (Json.arr [])).1 = Outcome.uncaught "AttributeError" := rfl

/-- C6 (amended): for every request whose body is a JSON object, each of
the four handlers returns an HTTP response — no exception escapes — and a
failing external call is converted to a JSON error payload with the fixed
status 400 on the session route and 500 on the quotes, depth and analysis
routes. -/
theorem routes_catch_failures
    (secret : Option String) (stub : BreezeStub) (g : String → Except String String)
    (session : BreezeSession) (fields : List (String × Json)) :
    (∃ n b, (set_session secret stub session (Json.obj fields)).1 = Outcome.response n b) ∧
    (∃ n b, (get_quotes stub session (Json.obj fields)).1 = Outcome.response n b) ∧
    (∃ n b, (get_depth stub session (Json.obj fields)).1 = Outcome.response n b) ∧
    (∃ n b, (analyze_market g session (Json.obj fields)).1 = Outcome.response n b) ∧
    (∀ e, stub.generate_session ⟨secret, dictGet fields "api_session"⟩ = .error e →
      (set_session secret stub session (Json.obj fields)).1 =
        Outcome.response 400 (Json.obj [("status", Json.str "error"),
                                        ("message", Json.str e)])) ∧
    (∀ e, stub.get_quotes ⟨dictGet fields "stock_code", "NSE", "", "cash", "", ""⟩ = .error e →
      (get_quotes stub session (Json.obj fields)).1 =
        Outcome.response 500 (Json.obj [("status", Json.str "error"),
                                        ("message", Json.str e)])) ∧
    (∀ e, stub.get_market_depth ⟨dictGet fields "stock_code", "NSE", "cash"⟩ = .error e →
      (get_depth stub session (Json.obj fields)).1 =
        Outcome.response 500 (Json.obj [("status", Json.str "error"),
                                        ("message", Json.str e)])) ∧
    (∀ e, g ("Analyze Nifty 50 for " ++ pyStr (dictGet fields "log_date") ++ "...") = .error e →
      (analyze_market g session (Json.obj fields)).1 =
        Outcome.response 500 (Json.obj [("error", Json.str e)])) := by
  refine ⟨?_, ?_, ?_, ?_, ?_, ?_, ?_, ?_⟩
  · cases h : stub.generate_session ⟨secret, dictGet fields "api_session"⟩ with
    | ok u =>
      exact ⟨200, Json.obj [("status", Json.str "success"),
        ("message", Json.str "Session generated")], by simp [set_session, pyGet, h]⟩
    | error e =>
      exact ⟨400, Json.obj [("status", Json.str "error"), ("message", Json.str e)],
        by simp [set_session, pyGet, h]⟩
  · cases h : stub.get_quotes ⟨dictGet fields "stock_code", "NSE", "", "cash", "", ""⟩ with
    | ok res => exact ⟨200, res, by simp [get_quotes, pyGet, h]⟩
    | error e =>
      exact ⟨500, Json.obj [("status", Json.str "error"), ("message", Json.str e)],
        by simp [get_quotes, pyGet, h]⟩
  · cases h : stub.get_market_depth ⟨dictGet fields "stock_code", "NSE", "cash"⟩ with
    | ok res => exact ⟨200, res, by simp [get_depth, pyGet, h]⟩
    | error e =>
      exact ⟨500, Json.obj [("status", Json.str "error"), ("message", Json.str e)],
        by simp [get_depth, pyGet, h]⟩
  · cases h : g ("Analyze Nifty 50 for " ++ pyStr (dictGet fields "log_date") ++ "...") with
    | ok t => exact ⟨200, Json.obj [("text", Json.str t)], by simp [analyze_market, pyGet, h]⟩
    | error e =>
      exact ⟨500, Json.obj [("error", Json.str e)], by simp [analyze_market, pyGet, h]⟩
  · intro e h
    simp [set_session, pyGet, h]
  · intro e h
    simp [get_quotes, pyGet, h]
  · intro e h
    simp [get_depth, pyGet, h]
  · intro e h
    simp [analyze_market, pyGet, h]

/-- Witness for the amended C6: the session route converts the concrete
stub's exception on a null token to a 400 JSON error. -/
theorem routes_catch_failures_witness :
    (set_session (some "secret-key") demoStub none (Json.obj [])).1 =
      Outcome.response 400 (Json.obj [("status", Json.str "error"),
        ("message", Json.str "Invalid session token")]) :=
  (routes_catch_failures (some "secret-key") demoStub demoModel none []).2.2.2.2.1
    "Invalid session token" rfl

/-- C7: for a JSON-object body without the `stock_code` key, the quotes
handler forwards `None` to the brokerage quote call, still returns an HTTP
response rather than crashing, and relays any exception the call raises as
the route's 500 JSON error. -/
theorem quotes_missing_stock_code_safe
    (stub : BreezeStub) (session : BreezeSession) (fields : List (String × Json))
    (hmiss : fields.find? (fun p => p.1 == "stock_code") = none) :
    (get_quotes stub session (Json.obj fields)).2.2 =
      [⟨Json.null, "NSE", "", "cash", "", ""⟩] ∧
    (∃ n b, (get_quotes stub session (Json.obj fields)).1 = Outcome.response n b) ∧
    (∀ e, stub.get_quotes ⟨Json.null, "NSE", "", "cash", "", ""⟩ = .error e →
      (get_quotes stub session (Json.obj fields)).1 =
        Outcome.response 500 (Json.obj [("status", Json.str "error"),
                                        ("message", Json.str e)])) := by
  have h0 : dictGet fields "stock_code" = Json.null := by
    simp [dictGet, hmiss]
  refine ⟨?_, ?_, ?_⟩
  · cases h : stub.get_quotes ⟨Json.null, "NSE", "", "cash", "", ""⟩ with
    | ok res => simp [get_quotes, pyGet, h0, h]
    | error e => simp [get_quotes, pyGet, h0, h]
  · cases h : stub.get_quotes ⟨Json.null, "NSE", "", "cash", "", ""⟩ with
    | ok res => exact ⟨200, res, by simp [get_quotes, pyGet, h0, h]⟩
    | error e =>
      exact ⟨500, Json.obj [("status", Json.str "error"), ("message", Json.str e)],
        by simp [get_quotes, pyGet, h0, h]⟩
  · intro e he
    simp [get_quotes, pyGet, h0, he]

/-- Witness for C7: empty body, the concrete stub raises on null. -/
theorem quotes_missing_stock_code_safe_witness :
    (get_quotes demoStub none (Json.obj [])).2.2 =
      [⟨Json.null, "NSE", "", "cash", "", ""⟩] ∧
    (get_quotes demoStub none (Json.obj [])).1 =
      Outcome.response 500 (Json.obj [("status", Json.str "error"),
        ("message", Json.str "stock_code must not be null")]) :=
  ⟨(quotes_missing_stock_code_safe demoStub none [] rfl).1,
   (quotes_missing_stock_code_safe demoStub none [] rfl).2.2
     "stock_code must not be null" rfl⟩

/-- C8: the quotes, depth and analysis handlers leave the brokerage
client's session state unchanged on every request body, successful or not;
only the session route produces a new session. -/
theorem read_routes_preserve_session
    (stub : BreezeStub) (g : String → Except String String)
    (session : BreezeSession) (data : Json) :
    (get_quotes stub session data).2.1 = session ∧
    (get_depth stub session data).2.1 = session ∧
    (analyze_market g session data).2.1 = session := by
  refine ⟨?_, ?_, ?_⟩
  · cases h : pyGet data "stock_code" with
    | error e => simp [get_quotes, h]
    | ok sc =>
      cases h2 : stub.get_quotes ⟨sc, "NSE", "", "cash", "", ""⟩ with
      | ok res => simp [get_quotes, h, h2]
      | error e => simp [get_quotes, h, h2]
  · cases h : pyGet data "stock_code" with
    | error e => simp [get_depth, h]
    | ok sc =>
      cases h2 : stub.get_market_depth ⟨sc, "NSE", "cash"⟩ with
      | ok res => simp [get_depth, h, h2]
      | error e => simp [get_depth, h, h2]
  · cases h : pyGet data "log_date" with
    | error e => simp [analyze_market, h]
    | ok ld =>
      cases h2 : g ("Analyze Nifty 50 for " ++ pyStr ld ++ "...") with
      | ok t => simp [analyze_market, h, h2]
      | error e => simp [analyze_market, h, h2]

/-- Witness for C8 at a concrete body and stubs. -/
theorem read_routes_preserve_session_witness :
    (get_quotes demoStub none (Json.obj [("stock_code", Json.str "INFY")])).2.1 =
      (none : BreezeSession) :=
  (read_routes_preserve_session demoStub demoModel none
    (Json.obj [("stock_code", Json.str "INFY")])).1

/-- C9: on a JSON-object body the depth handler's single vendor invocation
carries exactly the three parameters of its call site (stock code, `NSE`,
`cash`), while the quotes handler's carries six, the extra expiry date,
right and strike price sent as empty strings. -/
theorem depth_call_arg_shape
    (stub : BreezeStub) (session : BreezeSession)
    (fields : List (String × Json)) (sc : Json)
    (hsc : dictGet fields "stock_code" = sc) :
    (get_depth stub session (Json.obj fields)).2.2 =
      [GetMarketDepthArgs.mk sc "NSE" "cash"] ∧
    (get_quotes stub session (Json.obj fields)).2.2 =
      [GetQuotesArgs.mk sc "NSE" "" "cash" "" ""] := by
  subst hsc
  constructor
  · cases h : stub.get_market_depth ⟨dictGet fields "stock_code", "NSE", "cash"⟩ with
    | ok res => simp [get_depth, pyGet, h]
    | error e => simp [get_depth, pyGet, h]
  · cases h : stub.get_quotes ⟨dictGet fields "stock_code", "NSE", "", "cash", "", ""⟩ with
    | ok res => simp [get_quotes, pyGet, h]
    | error e => simp [get_quotes, pyGet, h]

/-- Witness for C9 at a concrete body. -/
theorem depth_call_arg_shape_witness :
    (get_depth demoStub none (Json.obj [("stock_code", Json.str "SBIN")])).2.2 =
      [GetMarketDepthArgs.mk (Json.str "SBIN") "NSE" "cash"] ∧
    (get_quotes demoStub none (Json.obj [("stock_code", Json.str "SBIN")])).2.2 =
      [GetQuotesArgs.mk (Json.str "SBIN") "NSE" "" "cash" "" ""] :=
  depth_call_arg_shape demoStub none [("stock_code", Json.str "SBIN")]
    (Json.str "SBIN") rfl

/-- C10: the prompt the analysis handler sends is exactly the template
around the Python-stringified `log_date` value: for a string value `d` it
is the template around `d`, and for an absent key it is the literal
`"Analyze Nifty 50 for None..."` — the handler does not fail. -/
theorem analyze_prompt_template
    (g : String → Except String String) (session : BreezeSession)
    (fields : List (String × Json)) :
    (analyze_market g session (Json.obj fields)).2.2 =
      ["Analyze Nifty 50 for " ++ pyStr (dictGet fields "log_date") ++ "..."] ∧
    (∀ d, dictGet fields "log_date" = Json.str d →
      (analyze_market g session (Json.obj fields)).2.2 =
        ["Analyze Nifty 50 for " ++ d ++ "..."]) ∧
    (fields.find? (fun p => p.1 == "log_date") = none →
      (analyze_market g session (Json.obj fields)).2.2 =
        ["Analyze Nifty 50 for None..."]) := by
  refine ⟨analyze_market_trace_eq g session fields, ?_, ?_⟩
  · intro d hd
    rw [analyze_market_trace_eq, hd]
    rfl
  · intro hmiss
    rw [analyze_market_trace_eq]
    have hn : pyStr (dictGet fields "log_date") = "None" := by
      simp [dictGet, hmiss, pyStr, pyRepr]
    rw [hn]
    decide

/-- Witness for C10: a dated body and an empty body. -/
theorem analyze_prompt_template_witness :
    (analyze_market demoModel none (Json.obj [("log_date", Json.str "2024-01-01")])).2.2 =
      ["Analyze Nifty 50 for 2024-01-01..."] ∧
    (analyze_market demoModel none (Json.obj [])).2.2 =
      ["Analyze Nifty 50 for None..."] :=
  ⟨(analyze_prompt_template demoModel none [("log_date", Json.str "2024-01-01")]).2.1
      "2024-01-01" rfl,
   (analyze_prompt_template demoModel none []).2.2 rfl⟩

end MarketAttribution
